import Mathlib

/-!
Verification of `src/finetune_gpt_neox_20b_belle.py`.

The script is a linear fine-tuning procedure; the logic original to it is
prompt templating, tokenization with label masking, hyperparameter wiring
(batch sizing, world-size-derived gradient accumulation), the dataset split,
and the adapter-only save path.  External libraries (the HuggingFace
tokenizer, `peft`, `datasets`) are modelled abstractly: the tokenizer as an
arbitrary encoding function with the script's configured special tokens, the
library helpers by their documented behavior, each noted at its definition.
Machine integers do not overflow here (Python ints are unbounded), so token
ids and sizes are plain `Int`/`Nat`.
-/

/-- Model of the HuggingFace tokenizer as loaded by the script
(`AutoTokenizer.from_pretrained("EleutherAI/gpt-neox-20b", add_eos_token=True)`).
`baseEncode` gives the token ids of a string before special tokens are added;
because the tokenizer is constructed with `add_eos_token=True`, every encoding
appends `eos_token_id` (so an encoded sequence is never empty). -/
structure Tokenizer where
  baseEncode : String → List Int
  eos_token_id : Int
  pad_token_id : Int

/-- The raw token ids `tokenizer(s)` produces before truncation/padding:
the base encoding followed by the eos token (`add_eos_token=True`). -/
def Tokenizer.encode (t : Tokenizer) (s : String) : List Int :=
  t.baseEncode s ++ [t.eos_token_id]

/-- Result record of a tokenizer call: `input_ids` and `attention_mask`. -/
structure TokOut where
  input_ids : List Int
  attention_mask : List Int
deriving DecidableEq, Repr

/-- `tokenizer(s, truncation=True, max_length=maxLength)` and, when `padMax`
is set, `padding="max_length"`: truncation keeps the first `maxLength` encoded
ids; max-length padding right-pads `input_ids` with `pad_token_id` up to
`maxLength` and extends the attention mask with zeros over the pad span. -/
def Tokenizer.call (t : Tokenizer) (s : String) (maxLength : Nat) (padMax : Bool) : TokOut :=
  let ids := (t.encode s).take maxLength
  if padMax then
    { input_ids := ids ++ List.replicate (maxLength - ids.length) t.pad_token_id
      attention_mask := List.replicate ids.length 1 ++ List.replicate (maxLength - ids.length) 0 }
  else
    { input_ids := ids, attention_mask := List.replicate ids.length 1 }

/-- `MICRO_BATCH_SIZE = 96`. -/
def MICRO_BATCH_SIZE : Int := 96

/-- `BATCH_SIZE = 96 * 2`. -/
def BATCH_SIZE : Int := 96 * 2

/-- `GRADIENT_ACCUMULATION_STEPS = BATCH_SIZE // MICRO_BATCH_SIZE`, the value
before the distributed (`ddp`) adjustment.  Python `//` is floor division,
i.e. `Int.fdiv`. -/
def GRADIENT_ACCUMULATION_STEPS : Int := Int.fdiv BATCH_SIZE MICRO_BATCH_SIZE

/-- `CUTOFF_LEN = 256`. -/
def CUTOFF_LEN : Nat := 256

/-- `VAL_SET_SIZE = 2000`. -/
def VAL_SET_SIZE : Nat := 2000

/-- `OUTPUT_DIR = "lora-gpt-neox-20b-belle"`. -/
def OUTPUT_DIR : String := "lora-gpt-neox-20b-belle"

/-- `world_size = int(os.environ.get("WORLD_SIZE", 1))`: the parsed integer
value of the `WORLD_SIZE` environment variable, defaulting to 1 when unset
(`env = none`). -/
def world_size (env : Option Int) : Int := env.getD 1

/-- The gradient accumulation count the script passes to
`transformers.TrainingArguments`: when `world_size != 1` (the `ddp` branch)
the initial `GRADIENT_ACCUMULATION_STEPS` is floor-divided by `world_size`.
Python raises `ZeroDivisionError` when `world_size` is 0 (so nothing reaches
the trainer), modelled as `none`. -/
def gradient_accumulation_steps_passed (env : Option Int) : Option Int :=
  let ws := world_size env
  if ws ≠ 1 then
    if ws = 0 then none
    else some (Int.fdiv GRADIENT_ACCUMULATION_STEPS ws)
  else some GRADIENT_ACCUMULATION_STEPS

/-- The upfront assertion (lines 10-12):
`assert "LlamaTokenizer" in transformers._import_structure["models.llama"]`.
Given the contents of the import structure's `models.llama` entry, the script
raises `AssertionError` with the reinstall-guidance message exactly when
`"LlamaTokenizer"` is absent, and proceeds unchanged otherwise. -/
def llama_feature_check (import_structure_models_llama : List String) : Except String Unit :=
  if "LlamaTokenizer" ∈ import_structure_models_llama then Except.ok ()
  else Except.error "LLaMA is now in HuggingFace's main branch.\nPlease reinstall it: pip uninstall transformers && pip install git+https://github.com/huggingface/transformers.git"

/-- A raw dataset record: the script reads only the `input` and `target`
fields; `other` carries any remaining fields of the JSON record, which the
script never touches. -/
structure DataPoint where
  input : String
  target : String
  other : List (String × String)

/-- `generate_prompt(data_point)`: the unindented prompt template.  Defined in
the script but not used by the tokenization pipeline. -/
def generate_prompt (dp : DataPoint) : String :=
  "Below is an instruction that describes a task. Write a response that appropriately completes the request.\n\n### Instruction:\n" ++ dp.input ++ "\n\n### Response:\n" ++ dp.target

/-- The `user_prompt` f-string built inside `generate_and_tokenize_prompt`:
the instruction-only prefix, interpolating only `data_point["input"]` (the
sixteen-space indentation comes from the Python source literal). -/
def user_prompt (dp : DataPoint) : String :=
  "Below is an instruction that describes a task. Write a response that appropriately completes the request.\n\n                ### Instruction:\n                " ++ dp.input ++ "\n\n                ### Response:\n                "

/-- `tokenize(prompt)`: tokenizer call with truncation and padding to
`max_length = CUTOFF_LEN + 1`, then both lists are cut by `[:-1]`. -/
def tokenize (t : Tokenizer) (prompt : String) : TokOut :=
  let result := t.call prompt (CUTOFF_LEN + 1) true
  { input_ids := result.input_ids.dropLast
    attention_mask := result.attention_mask.dropLast }

/-- `len_user_prompt_tokens`: the length of the truncated, unpadded
tokenization of `user_prompt`, minus one ("no eos token").  The encoding is
never empty (eos is always appended), so the Python `len(...) - 1` is a
nonnegative value and natural subtraction is faithful. -/
def len_user_prompt_tokens (t : Tokenizer) (dp : DataPoint) : Nat :=
  (t.call (user_prompt dp) (CUTOFF_LEN + 1) false).input_ids.length - 1

/-- A tokenized training record: `input_ids`, `labels`, `attention_mask`. -/
structure TokenizedRecord where
  input_ids : List Int
  labels : List Int
  attention_mask : List Int
deriving DecidableEq, Repr

/-- `generate_and_tokenize_prompt(data_point)`: tokenize
`user_prompt + data_point["target"]` with truncation/padding to
`CUTOFF_LEN + 1` and drop the final token (`full_tokens`); labels are the
ignore sentinel `-100` over the first `len_user_prompt_tokens` positions
followed by `full_tokens[len_user_prompt_tokens:]`; the attention mask is all
ones over the length of `full_tokens`. -/
def generate_and_tokenize_prompt (t : Tokenizer) (dp : DataPoint) : TokenizedRecord :=
  let n := len_user_prompt_tokens t dp
  let full_tokens :=
    (t.call (user_prompt dp ++ dp.target) (CUTOFF_LEN + 1) true).input_ids.dropLast
  { input_ids := full_tokens
    labels := List.replicate n (-100) ++ full_tokens.drop n
    attention_mask := List.replicate full_tokens.length 1 }

/-- `tokenizer.pad_token_id = 0` (line 98): the script sets the pad token id
to 0 before any dataset tokenization. -/
def set_pad_token (t : Tokenizer) : Tokenizer := { t with pad_token_id := 0 }

/-- Does the character list contain `"lora_"` as a contiguous sublist? -/
def hasLoraChars : List Char → Bool
  | [] => false
  | c :: rest => List.isPrefixOf "lora_".toList (c :: rest) || hasLoraChars rest

/-- Is `key` the name of an adapter (LoRA) parameter, i.e. does it contain
the substring `"lora_"`? -/
def isLoraKey (key : String) : Bool := hasLoraChars key.toList

/-- Models `get_peft_model_state_dict` from the external `peft` library: for a
LoRA-wrapped model configured with `bias="none"`, it returns exactly the state
dict entries whose key contains `"lora_"` — the adapter weights, never the
frozen base-model weights. -/
def get_peft_model_state_dict (state_dict : List (String × α)) : List (String × α) :=
  state_dict.filter (fun kv => isLoraKey kv.1)

/-- Result of the final save: the directory handed to `save_pretrained` and
the state dict it serializes there. -/
structure SaveResult (α : Type) where
  dir : String
  saved_state_dict : List (String × α)

/-- The script's save path (lines 200-211): `model.state_dict` is replaced by
`lambda self, *_, **__: get_peft_model_state_dict(self, old_state_dict())`,
so `model.save_pretrained(OUTPUT_DIR)` serializes only the PEFT adapter state
into `OUTPUT_DIR`. -/
def script_save (old_state_dict : List (String × α)) : SaveResult α :=
  { dir := OUTPUT_DIR, saved_state_dict := get_peft_model_state_dict old_state_dict }

/-- Models the seeded shuffle of the external `datasets` library: a
deterministic permutation of the records driven by the seed. -/
def seeded_shuffle (seed : Nat) (xs : List α) : List α :=
  xs.rotate (seed % (xs.length + 1))

/-- Models `Dataset.train_test_split(test_size=k, shuffle=True, seed=s)` from
the external `datasets` library: shuffle deterministically with the seed, put
`k` of the shuffled records in the test split and the rest in the train
split. -/
def train_test_split (seed test_size : Nat) (xs : List α) : List α × List α :=
  let shuffled := seeded_shuffle seed xs
  (shuffled.drop test_size, shuffled.take test_size)

/-- The script's dataset split (lines 165-173): when `VAL_SET_SIZE > 0`, the
raw training split is divided by `train_test_split(test_size=VAL_SET_SIZE,
shuffle=True, seed=42)` into train and validation data; otherwise all records
are training data and `val_data` is `None`. -/
def build_train_val (val_set_size : Nat) (data : List DataPoint) :
    List DataPoint × Option (List DataPoint) :=
  if val_set_size > 0 then
    let train_val := train_test_split 42 val_set_size data
    (train_val.1, some train_val.2)
  else (data, none)

theorem Tokenizer.encode_length (t : Tokenizer) (s : String) :
    (t.encode s).length = (t.baseEncode s).length + 1 := by
  simp [Tokenizer.encode]

theorem call_pad_input_ids_length (t : Tokenizer) (s : String) (L : Nat) :
    ((t.call s L true).input_ids).length = L := by
  simp only [Tokenizer.call, if_true, List.length_append, List.length_replicate,
    List.length_take]
  omega

theorem call_nopad_input_ids_length (t : Tokenizer) (s : String) (L : Nat) :
    ((t.call s L false).input_ids).length = min L (t.encode s).length := by
  simp [Tokenizer.call]

theorem gat_input_ids_length (t : Tokenizer) (dp : DataPoint) :
    (generate_and_tokenize_prompt t dp).input_ids.length = CUTOFF_LEN := by
  simp only [generate_and_tokenize_prompt, List.length_dropLast,
    call_pad_input_ids_length]
  omega

theorem len_user_prompt_tokens_le (t : Tokenizer) (dp : DataPoint) :
    len_user_prompt_tokens t dp ≤ CUTOFF_LEN := by
  simp only [len_user_prompt_tokens, call_nopad_input_ids_length]
  omega

/-- C2: for every data point the `input_ids` produced by
`generate_and_tokenize_prompt`, and those produced by `tokenize` on any
prompt, have length exactly `CUTOFF_LEN` (256): tokenization truncates and
pads to `max_length = CUTOFF_LEN + 1` and then drops the final token. -/
theorem tokenized_length_is_cutoff (t : Tokenizer) (dp : DataPoint) (prompt : String) :
    (generate_and_tokenize_prompt t dp).input_ids.length = CUTOFF_LEN ∧
    (tokenize t prompt).input_ids.length = CUTOFF_LEN ∧
    CUTOFF_LEN = 256 := by
  refine ⟨gat_input_ids_length t dp, ?_, rfl⟩
  simp only [tokenize, List.length_dropLast, call_pad_input_ids_length]
  omega

/-- C8: every record produced by `generate_and_tokenize_prompt` has `labels`
and `attention_mask` of the same length as `input_ids`, and the attention
mask is all ones over that whole length (padded positions included). -/
theorem record_fields_aligned_all_ones (t : Tokenizer) (dp : DataPoint) :
    (generate_and_tokenize_prompt t dp).labels.length =
        (generate_and_tokenize_prompt t dp).input_ids.length ∧
    (generate_and_tokenize_prompt t dp).attention_mask =
        List.replicate (generate_and_tokenize_prompt t dp).input_ids.length 1 := by
  have hlen := gat_input_ids_length t dp
  have hle := len_user_prompt_tokens_le t dp
  constructor
  · simp only [generate_and_tokenize_prompt] at hlen ⊢
    simp only [List.length_append, List.length_replicate, List.length_drop, hlen]
    omega
  · simp only [generate_and_tokenize_prompt]

/-- C1: in the record produced by `generate_and_tokenize_prompt`, labels are
the ignore sentinel `-100` exactly on the instruction-prefix token span:
`labels[i]` is `-100` for every `i` strictly below `len_user_prompt_tokens`
(the truncated token length of the user prompt minus one), and `labels[i]`
equals `input_ids[i]` for every `i` at or above it. -/
theorem label_mask_matches_user_prompt_span (t : Tokenizer) (dp : DataPoint) (i : Nat) :
    (i < len_user_prompt_tokens t dp →
      (generate_and_tokenize_prompt t dp).labels[i]? = some (-100)) ∧
    (len_user_prompt_tokens t dp ≤ i →
      (generate_and_tokenize_prompt t dp).labels[i]? =
        (generate_and_tokenize_prompt t dp).input_ids[i]?) := by
  constructor
  · intro h
    simp only [generate_and_tokenize_prompt, List.getElem?_append, List.length_replicate,
      List.getElem?_replicate]
    simp [h]
  · intro h
    simp only [generate_and_tokenize_prompt, List.getElem?_append, List.length_replicate,
      List.getElem?_drop]
    rw [if_neg (Nat.not_lt.mpr h), Nat.add_sub_cancel' h]

/-- A concrete miniature tokenizer used by witnesses: every character encodes
to token id 7, eos id 9, pad id 5. -/
def witTok : Tokenizer :=
  { baseEncode := fun s => List.replicate s.length 7, eos_token_id := 9, pad_token_id := 5 }

/-- A concrete data point used by witnesses. -/
def witPoint : DataPoint := { input := "hi", target := "yo", other := [] }

set_option maxRecDepth 100000 in
theorem label_mask_matches_user_prompt_span_witness :
    (generate_and_tokenize_prompt witTok witPoint).labels[0]? = some (-100) ∧
    (generate_and_tokenize_prompt witTok witPoint).labels[250]? =
      (generate_and_tokenize_prompt witTok witPoint).input_ids[250]? :=
  ⟨(label_mask_matches_user_prompt_span witTok witPoint 0).1 (by decide),
   (label_mask_matches_user_prompt_span witTok witPoint 250).2 (by decide)⟩

/-- C3: whenever a gradient accumulation count reaches the trainer, it is
world-size-derived: it equals `BATCH_SIZE // MICRO_BATCH_SIZE = 2` when
`WORLD_SIZE` is 1 or unset, and `(BATCH_SIZE // MICRO_BATCH_SIZE) //
world_size` (floor division) when `WORLD_SIZE` differs from 1. -/
theorem grad_accum_is_world_size_derived (env : Option Int) (g : Int)
    (h : gradient_accumulation_steps_passed env = some g) :
    (world_size env = 1 → g = 2) ∧
    (world_size env ≠ 1 →
      g = Int.fdiv (Int.fdiv BATCH_SIZE MICRO_BATCH_SIZE) (world_size env)) := by
  constructor
  · intro h1
    simp only [gradient_accumulation_steps_passed, h1] at h
    norm_num at h
    rw [← h]
    decide
  · intro h1
    by_cases h0 : world_size env = 0
    · simp [gradient_accumulation_steps_passed, h0] at h
    · simp only [gradient_accumulation_steps_passed, if_pos h1, if_neg h0,
        Option.some.injEq] at h
      rw [← h]
      rfl

theorem grad_accum_is_world_size_derived_witness :
    gradient_accumulation_steps_passed (some 2) = some 1 ∧
    ((world_size (some 2) = 1 → (1 : Int) = 2) ∧
     (world_size (some 2) ≠ 1 →
       (1 : Int) = Int.fdiv (Int.fdiv BATCH_SIZE MICRO_BATCH_SIZE) (world_size (some 2)))) :=
  ⟨by decide, grad_accum_is_world_size_derived (some 2) 1 (by decide)⟩

/-- C4: the upfront check raises an `AssertionError` carrying the
reinstall-guidance message if and only if `"LlamaTokenizer"` is absent from
the transformers llama import structure, and succeeds unchanged if and only
if it is present. -/
theorem llama_assertion_iff_feature_absent (features : List String) :
    (llama_feature_check features =
        Except.error "LLaMA is now in HuggingFace's main branch.\nPlease reinstall it: pip uninstall transformers && pip install git+https://github.com/huggingface/transformers.git"
      ↔ "LlamaTokenizer" ∉ features) ∧
    (llama_feature_check features = Except.ok () ↔ "LlamaTokenizer" ∈ features) := by
  by_cases h : "LlamaTokenizer" ∈ features <;> simp [llama_feature_check, h]

/-- C5: the tokenized output is built from exactly the record's `input` and
`target` fields: the remaining record fields never influence the result, and
the text handed to the tokenizer is the instruction-only prefix
(`user_prompt`, which interpolates `data_point["input"]`) concatenated with
`data_point["target"]`. -/
theorem prompt_built_from_input_and_target (t : Tokenizer) (inp tgt : String)
    (o₁ o₂ : List (String × String)) :
    generate_and_tokenize_prompt t ⟨inp, tgt, o₁⟩ =
      generate_and_tokenize_prompt t ⟨inp, tgt, o₂⟩ ∧
    (generate_and_tokenize_prompt t ⟨inp, tgt, o₁⟩).input_ids =
      ((t.call (user_prompt ⟨inp, tgt, o₁⟩ ++ tgt) (CUTOFF_LEN + 1) true).input_ids).dropLast :=
  ⟨rfl, rfl⟩

/-- C6: `generate_and_tokenize_prompt` is a deterministic transformation: two
applications with the same tokenizer state and the same data point produce
identical `input_ids`, `labels`, and `attention_mask` lists. -/
theorem generate_and_tokenize_prompt_deterministic (t₁ t₂ : Tokenizer)
    (dp₁ dp₂ : DataPoint) (ht : t₁ = t₂) (hdp : dp₁ = dp₂) :
    (generate_and_tokenize_prompt t₁ dp₁).input_ids =
        (generate_and_tokenize_prompt t₂ dp₂).input_ids ∧
    (generate_and_tokenize_prompt t₁ dp₁).labels =
        (generate_and_tokenize_prompt t₂ dp₂).labels ∧
    (generate_and_tokenize_prompt t₁ dp₁).attention_mask =
        (generate_and_tokenize_prompt t₂ dp₂).attention_mask := by
  subst ht
  subst hdp
  exact ⟨rfl, rfl, rfl⟩

theorem generate_and_tokenize_prompt_deterministic_witness :
    (generate_and_tokenize_prompt witTok witPoint).input_ids =
        (generate_and_tokenize_prompt witTok witPoint).input_ids ∧
    (generate_and_tokenize_prompt witTok witPoint).labels =
        (generate_and_tokenize_prompt witTok witPoint).labels ∧
    (generate_and_tokenize_prompt witTok witPoint).attention_mask =
        (generate_and_tokenize_prompt witTok witPoint).attention_mask :=
  generate_and_tokenize_prompt_deterministic witTok witTok witPoint witPoint rfl rfl

/-- C7: the final save targets `OUTPUT_DIR` and serializes only the PEFT
adapter state: the saved state dict is `get_peft_model_state_dict` of the old
state dict, and every entry it keeps is a LoRA adapter key (no base-model
weights). -/
theorem save_emits_adapter_state_to_output_dir {α : Type} (sd : List (String × α)) :
    (script_save sd).dir = OUTPUT_DIR ∧
    (script_save sd).saved_state_dict = get_peft_model_state_dict sd ∧
    ∀ kv ∈ (script_save sd).saved_state_dict, isLoraKey kv.1 = true := by
  refine ⟨rfl, rfl, ?_⟩
  intro kv hkv
  simp only [script_save, get_peft_model_state_dict, List.mem_filter] at hkv
  exact hkv.2

theorem save_emits_adapter_state_to_output_dir_witness :
    (script_save [("layers.0.query_key_value.lora_A.weight", (1 : Int))]).dir = OUTPUT_DIR ∧
    isLoraKey "layers.0.query_key_value.lora_A.weight" = true :=
  ⟨(save_emits_adapter_state_to_output_dir
      [("layers.0.query_key_value.lora_A.weight", (1 : Int))]).1,
   (save_emits_adapter_state_to_output_dir
      [("layers.0.query_key_value.lora_A.weight", (1 : Int))]).2.2
      ("layers.0.query_key_value.lora_A.weight", 1) (by decide)⟩

theorem call_pad_getElem_pad (t : Tokenizer) (s : String) (L i : Nat)
    (hlo : (t.encode s).length ≤ i) (hhi : i < L) :
    ((t.call s L true).input_ids)[i]? = some t.pad_token_id := by
  simp only [Tokenizer.call, if_true, List.getElem?_append, List.length_take,
    List.getElem?_replicate]
  rw [if_neg (by omega), if_pos (by omega)]

/-- C9 (amended): the script sets `pad_token_id` to 0 before tokenization, so
every padding position of `input_ids` (a position at or past the encoded
length of the tokenized text, within `CUTOFF_LEN`) holds token id 0; that
value is distinct from the end-of-sequence token id precisely when the
tokenizer's eos id is nonzero. -/
theorem pad_positions_hold_token_zero (t0 : Tokenizer) (dp : DataPoint) (i : Nat)
    (hlo : ((set_pad_token t0).encode (user_prompt dp ++ dp.target)).length ≤ i)
    (hhi : i < CUTOFF_LEN) :
    (generate_and_tokenize_prompt (set_pad_token t0) dp).input_ids[i]? = some 0 ∧
    ((set_pad_token t0).pad_token_id ≠ (set_pad_token t0).eos_token_id ↔
      t0.eos_token_id ≠ 0) := by
  constructor
  · have h := call_pad_getElem_pad (set_pad_token t0) (user_prompt dp ++ dp.target)
      (CUTOFF_LEN + 1) i hlo (by omega)
    simp only [generate_and_tokenize_prompt]
    rw [List.dropLast_eq_take, call_pad_input_ids_length, List.getElem?_take,
      if_pos (by omega), h]
    simp [set_pad_token]
  · simp only [set_pad_token]
    exact ne_comm

set_option maxRecDepth 100000 in
theorem pad_positions_hold_token_zero_witness :
    (generate_and_tokenize_prompt (set_pad_token witTok) witPoint).input_ids[250]? = some 0 ∧
    ((set_pad_token witTok).pad_token_id ≠ (set_pad_token witTok).eos_token_id ↔
      witTok.eos_token_id ≠ 0) :=
  pad_positions_hold_token_zero witTok witPoint 250 (by decide) (by decide)

set_option maxRecDepth 100000

/-- The tokenizer of `EleutherAI/gpt-neox-20b` uses end-of-text token id 0;
this concrete instance records that fact (each character encodes to id 7). -/
def neoxEosTok : Tokenizer :=
  { baseEncode := fun s => List.replicate s.length 7, eos_token_id := 0, pad_token_id := 5 }

/-- C9 counterexample: with an eos token id of 0 — the actual id of the
GPT-NeoX-20B end-of-text token — the padding value 0 set by the script is
not distinct from the eos id: the pad id equals the eos id, and a padding
position of `input_ids` holds exactly the eos id. -/
theorem pad_value_equals_eos_counterexample :
    (set_pad_token neoxEosTok).pad_token_id = (set_pad_token neoxEosTok).eos_token_id ∧
    (generate_and_tokenize_prompt (set_pad_token neoxEosTok) witPoint).input_ids[250]? =
      some ((set_pad_token neoxEosTok).eos_token_id) := by
  decide

/-- C10: when `VAL_SET_SIZE > 0` the raw training split is partitioned by the
seed-42 split into a train part and a validation part of exactly
`VAL_SET_SIZE` records (the two parts together are a permutation of the
data); when it is 0 no validation set is built and `val_data` is `None`;
`VAL_SET_SIZE` is 2000. -/
theorem val_split_fixed_seed (v : Nat) (data : List DataPoint) :
    (0 < v → v ≤ data.length →
      ∃ val, (build_train_val v data).2 = some val ∧ val.length = v ∧
        ((build_train_val v data).1 ++ val).Perm data) ∧
    (v = 0 → (build_train_val v data).2 = none ∧ (build_train_val v data).1 = data) ∧
    VAL_SET_SIZE = 2000 := by
  refine ⟨?_, ?_, rfl⟩
  · intro hv hle
    refine ⟨(train_test_split 42 v data).2, ?_, ?_, ?_⟩
    · simp [build_train_val, hv]
    · simp only [train_test_split, seeded_shuffle, List.length_take, List.length_rotate]
      omega
    · have h1 : (build_train_val v data).1 = (train_test_split 42 v data).1 := by
        simp [build_train_val, hv]
      rw [h1]
      simp only [train_test_split, seeded_shuffle]
      refine List.Perm.trans List.perm_append_comm ?_
      rw [List.take_append_drop]
      exact data.rotate_perm _
  · intro hv
    subst hv
    simp [build_train_val]

theorem val_split_fixed_seed_witness :
    (∃ val, (build_train_val 1 [witPoint]).2 = some val ∧ val.length = 1 ∧
      ((build_train_val 1 [witPoint]).1 ++ val).Perm [witPoint]) ∧
    (build_train_val 0 [witPoint]).2 = none :=
  ⟨(val_split_fixed_seed 1 [witPoint]).1 (by decide) (by decide),
   ((val_split_fixed_seed 0 [witPoint]).2.1 rfl).1⟩
